import Mathlib

/-!
Verification of the per-entity parameter resolution engine and the path
field of `ctapipe/core/traits.py`, via a shallow embedding in Lean.

The embedding mirrors the Python source:

* `Py` models the dynamically-typed raw values that flow through trait
  validation (strings, ints, bools, rationals standing in for the float
  literals of the source, and `None`).
* `PyErr` models the exception classes that validation code can raise
  (`TraitError`, `TypeError`, `ValueError`, `AttributeError`).
* `dictInsert`/`dictGet` model Python `dict` assignment and lookup on
  insertion-ordered association lists.
* `fnmatch` models `fnmatch.fnmatch` for patterns built from literal
  characters and the wildcards `*` and `?` (character classes are not
  used by this code base).
* `TelescopeParameterLookup` models the class of the same name
  (`traits.py` lines 381-486), `TelescopePatternList` models the
  rule-list value type (lines 330-378), and `TelescopeParameter.validate`
  / `TelescopeParameter.set` model lines 570-630.
* `PathTrait` models the `Path` trait (lines 97-202), with the
  filesystem, the caching downloader and the dataset registry as
  explicit collaborator records.
-/

namespace Ctapipe

/-- Model of the Python exception classes raised by the validation code. -/
inductive PyErr where
  | traitError
  | typeError
  | valueError
  | attributeError
deriving DecidableEq, Repr

/-- Model of the dynamically-typed Python values handled by
`TelescopeParameter` validation.  Float literals of the source (such as
`9.0`) are modelled by rationals; the arithmetic performed on them by the
code under verification is only truncation in `int(...)`. -/
inductive Py where
  | str (s : String)
  | int (n : Int)
  | float (q : Rat)
  | bool (b : Bool)
  | none
deriving DecidableEq, Repr

/-- Model of Python `int(s)` for a string argument: optional surrounding
spaces, an optional sign and a non-empty run of decimal digits
(the underscore-separator and non-ASCII digit forms accepted by CPython
are not used by this code base).  A malformed string raises `ValueError`. -/
def pyIntOfString (s : String) : Except PyErr Int :=
  let l := (s.data.dropWhile (fun c => c = ' ')).reverse.dropWhile (fun c => c = ' ')
  let l := l.reverse
  match l with
  | [] => Except.error PyErr.valueError
  | c :: cs =>
      let ds := if c = '-' ∨ c = '+' then cs else c :: cs
      let neg := c = '-'
      if ds.isEmpty then Except.error PyErr.valueError
      else if ds.all Char.isDigit then
        let n : Nat := ds.foldl (fun acc d => acc * 10 + (d.toNat - 48)) 0
        Except.ok (if neg then -(n : Int) else (n : Int))
      else Except.error PyErr.valueError

/-- Model of Python `int(x)` on a dynamically-typed value: ints and bools
coerce, floats truncate toward zero, strings parse (raising `ValueError`
on failure), and non-numeric non-string values raise `TypeError`. -/
def pyInt : Py → Except PyErr Int
  | Py.int n => Except.ok n
  | Py.bool b => Except.ok (if b then 1 else 0)
  | Py.float q => Except.ok (q.num.tdiv (q.den : Int))
  | Py.str s => pyIntOfString s
  | Py.none => Except.error PyErr.typeError

/-- Python `dict` assignment `m[k] = v` on an insertion-ordered
association list: an existing binding is overwritten in place, a new key
is appended. -/
def dictInsert {K V : Type} [DecidableEq K] : List (K × V) → K → V → List (K × V)
  | [], k, v => [(k, v)]
  | (k', v') :: rest, k, v =>
      if k' = k then (k, v) :: rest else (k', v') :: dictInsert rest k v

/-- Python `dict` lookup `m[k]` (as an `Option`). -/
def dictGet {K V : Type} [DecidableEq K] : List (K × V) → K → Option V
  | [], _ => Option.none
  | (k', v') :: rest, k => if k' = k then some v' else dictGet rest k

/-- Glob matching of `fnmatch.translate` patterns restricted to literal
characters and the wildcards `*` and `?` (the character-class syntax is
not used by this code base).  First argument: pattern, second: name. -/
def globMatch : List Char → List Char → Bool
  | [], [] => true
  | '*' :: ps, [] => globMatch ps []
  | '*' :: ps, c :: cs => globMatch ps (c :: cs) || globMatch ('*' :: ps) cs
  | '?' :: ps, _ :: cs => globMatch ps cs
  | p :: ps, c :: cs => p = c && globMatch ps cs
  | _, _ => false
termination_by ps cs => (ps.length, cs.length)

/-- Model of `fnmatch.fnmatch(name, pattern)` (case-sensitive, as on a
posix filesystem where `os.path.normcase` is the identity). -/
def fnmatch (name pattern : String) : Bool :=
  globMatch pattern.data name.data

/-- The selector argument of a normalized telescope pattern: the `type`
command carries a glob string, the `id` command an integer.  A raw
`TelescopeParameterLookup` built without going through trait validation
can also carry a string argument on an `id` command; `Arg` keeps both
shapes, as the Python tuples do. -/
inductive Arg where
  | str (s : String)
  | int (n : Int)
deriving DecidableEq, Repr

/-- One `(command, argument, value)` tuple of a telescope parameter list. -/
structure TelescopePattern (V : Type) where
  command : String
  argument : Arg
  value : V
deriving DecidableEq, Repr

/-- Model of `SubarrayDescription` as seen by this code: the set of
telescope type names (the `str()` images of the telescope types) and the
ids of the telescopes of each type. -/
structure Subarray where
  telescope_types : List String
  get_tel_ids_for_type : String → List Int

/-- Model of Python `int(arg)` on a pattern argument. -/
def argToInt : Arg → Except PyErr Int
  | Arg.int n => Except.ok n
  | Arg.str s => pyIntOfString s

/-- State of `TelescopeParameterLookup` (traits.py lines 381-486).
`Option.none` on the map fields models the `None` the constructor stores
before `attach_subarray` has run; `subarray_global_value = Option.none`
models `Undefined`. -/
structure TelescopeParameterLookup (V : Type) where
  telescope_parameter_list : List (TelescopePattern V)
  value_for_tel_id : Option (List (Int × V))
  value_for_type : Option (List (String × V))
  subarray : Option Subarray
  subarray_global_value : Option V
  type_strs : Option (List String)

/-- The constructor scan of lines 398-400: the last parameter whose
argument compares equal to the string `"*"` sets the global value.
(The comparison is `param[1] == "*"`, so an integer argument never
matches.) -/
def scanGlobalValue {V : Type} (l : List (TelescopePattern V)) : Option V :=
  l.foldl (fun acc p => if p.argument = Arg.str ("*") then some p.value else acc) Option.none

/-- `TelescopeParameterLookup.__init__` (lines 382-400).  The deepcopy of
the parameter list is value-copying, hence the identity here. -/
def TelescopeParameterLookup.mk' {V : Type} (l : List (TelescopePattern V)) :
    TelescopeParameterLookup V :=
  { telescope_parameter_list := l
    value_for_tel_id := Option.none
    value_for_type := Option.none
    subarray := Option.none
    subarray_global_value := scanGlobalValue l
    type_strs := Option.none }

/-- The two dictionaries built up during `attach_subarray`. -/
structure AttachState (V : Type) where
  value_for_tel_id : List (Int × V)
  value_for_type : List (String × V)

/-- The body of the `for tel_type in matched_tel_types` loop of lines
431-434: record the value for the type and for every member id. -/
def applyTypeMatch {V : Type} (sub : Subarray) (v : V) (st : AttachState V) (t : String) :
    AttachState V :=
  { value_for_type := dictInsert st.value_for_type t v
    value_for_tel_id :=
      (sub.get_tel_ids_for_type t).foldl (fun m i => dictInsert m i v) st.value_for_tel_id }

/-- One iteration of the rule-replay loop of `attach_subarray` (lines
417-438).  A `type` command writes every matched type and its members; an
unmatched pattern only logs a warning (not modelled); an `id` command
coerces its argument with `int(...)` (whose `ValueError` propagates); any
other command raises `ValueError` (line 438).  A non-string argument on a
`type` command raises `TypeError` inside `fnmatch`. -/
def applyPattern {V : Type} (sub : Subarray) (st : AttachState V) (p : TelescopePattern V) :
    Except PyErr (AttachState V) :=
  if p.command = "type" then
    match p.argument with
    | Arg.str pat =>
        Except.ok
          ((sub.telescope_types.filter (fun t => fnmatch t pat)).foldl
            (applyTypeMatch sub p.value) st)
    | Arg.int _ => Except.error PyErr.typeError
  else if p.command = "id" then
    match argToInt p.argument with
    | Except.ok n =>
        Except.ok { st with value_for_tel_id := dictInsert st.value_for_tel_id n p.value }
    | Except.error e => Except.error e
  else Except.error PyErr.valueError

/-- The rule-replay loop of `attach_subarray`, in list order. -/
def attachLoop {V : Type} (sub : Subarray) :
    List (TelescopePattern V) → AttachState V → Except PyErr (AttachState V)
  | [], st => Except.ok st
  | p :: rest, st =>
      match applyPattern sub st p with
      | Except.ok st' => attachLoop sub rest st'
      | Except.error e => Except.error e

/-- `TelescopeParameterLookup.attach_subarray` (lines 402-438): both maps
and the type-name set are recomputed from scratch from the stored
parameter list and the new subarray. -/
def TelescopeParameterLookup.attach_subarray {V : Type}
    (lk : TelescopeParameterLookup V) (sub : Subarray) :
    Except PyErr (TelescopeParameterLookup V) :=
  match attachLoop sub lk.telescope_parameter_list ⟨[], []⟩ with
  | Except.error e => Except.error e
  | Except.ok st =>
      Except.ok
        { lk with
          subarray := some sub
          value_for_tel_id := some st.value_for_tel_id
          value_for_type := some st.value_for_type
          type_strs := some sub.telescope_types }

/-- The three shapes of key accepted by `__getitem__`. -/
inductive LookupKey where
  | none
  | id (n : Int)
  | type (s : String)
deriving DecidableEq, Repr

/-- The lookup-time error taxonomy of the spec, mapped from the
exceptions of `__getitem__`: `NotBound` is the `ValueError` of lines
450-454 (and the `RuntimeError` of `TelescopePatternList.tel`),
`NoDefault` the `KeyError` of line 448, `UnresolvedEntity` the
`KeyError` of lines 459-465 and 479-484, `UnknownType` the `ValueError`
of lines 473-475. -/
inductive LookupErr where
  | notBound
  | noDefault
  | unresolvedEntity
  | unknownType
deriving DecidableEq, Repr

/-- `TelescopeParameterLookup.__getitem__` (lines 440-486).  Note that
the `None` key is handled before the not-attached check, from the
construction-time global value.  In any state reachable through `mk'`
and `attach_subarray`, `type_strs` and `value_for_type` are `some`
whenever `value_for_tel_id` is, so the `getD` defaults are never
consulted. -/
def TelescopeParameterLookup.get {V : Type} (lk : TelescopeParameterLookup V) :
    LookupKey → Except LookupErr V
  | LookupKey.none =>
      match lk.subarray_global_value with
      | some v => Except.ok v
      | Option.none => Except.error LookupErr.noDefault
  | LookupKey.id n =>
      match lk.value_for_tel_id with
      | Option.none => Except.error LookupErr.notBound
      | some m =>
          match dictGet m n with
          | some v => Except.ok v
          | Option.none => Except.error LookupErr.unresolvedEntity
  | LookupKey.type s =>
      match lk.value_for_tel_id with
      | Option.none => Except.error LookupErr.notBound
      | some _ =>
          if (lk.type_strs.getD []).contains s then
            match dictGet (lk.value_for_type.getD []) s with
            | some v => Except.ok v
            | Option.none => Except.error LookupErr.unresolvedEntity
          else Except.error LookupErr.unknownType

/-- Iterated `attach_subarray` over a list of subarrays (for claims
quantifying over "any number of attach calls"). -/
def attachMany {V : Type} (lk : TelescopeParameterLookup V) :
    List Subarray → Except PyErr (TelescopeParameterLookup V)
  | [] => Except.ok lk
  | c :: cs =>
      match lk.attach_subarray c with
      | Except.ok lk' => attachMany lk' cs
      | Except.error e => Except.error e

/-- State of a `TelescopePatternList` (lines 330-378): the normalized
ordered patterns plus the auxiliary `_lookup` / `_subarray` attributes. -/
structure TelescopePatternList (V : Type) where
  data : List (TelescopePattern V)
  lookup : Option (TelescopeParameterLookup V)
  subarray : Option Subarray

/-- `TelescopePatternList.attach_subarray` (lines 372-378): records the
subarray and forwards to the lookup; when no lookup was registered (an
empty pattern list) the attribute access on `None` raises. -/
def TelescopePatternList.attach_subarray {V : Type}
    (tpl : TelescopePatternList V) (sub : Subarray) :
    Except PyErr (TelescopePatternList V) :=
  match tpl.lookup with
  | Option.none => Except.error PyErr.attributeError
  | some lk =>
      match lk.attach_subarray sub with
      | Except.error e => Except.error e
      | Except.ok lk' => Except.ok { tpl with subarray := some sub, lookup := some lk' }

/-- The `.tel[x]` accessor (lines 344-353 plus `__getitem__`): the
`RuntimeError` raised when no lookup was registered is folded into
`LookupErr.notBound`, which in the spec's taxonomy also covers it. -/
def TelescopePatternList.tel {V : Type} (tpl : TelescopePatternList V) (k : LookupKey) :
    Except LookupErr V :=
  match tpl.lookup with
  | some lk => lk.get k
  | Option.none => Except.error LookupErr.notBound

/-- Validation of one raw `(command, argument, value)` pattern, following
lines 581-607 in order: the arity check, the inner-trait validation of
the value (line 588), the command checks (lines 590-594), the `type`
argument check (lines 596-598), the `id` coercion where only `ValueError`
is converted into a `TraitError` (lines 600-604), and the second
inner-trait validation (line 606).  The inner trait is the collaborator
`ev`. -/
def validatePattern (ev : Py → Except PyErr Py) (pattern : List Py) :
    Except PyErr (TelescopePattern Py) :=
  match pattern with
  | [command, argPy, rawVal] =>
      match ev rawVal with
      | Except.error e => Except.error e
      | Except.ok val =>
          match command with
          | Py.str c =>
              if c = "type" then
                match argPy with
                | Py.str s =>
                    match ev val with
                    | Except.ok val2 => Except.ok ⟨"type", Arg.str s, val2⟩
                    | Except.error e => Except.error e
                | _ => Except.error PyErr.traitError
              else if c = "id" then
                match pyInt argPy with
                | Except.ok n =>
                    match ev val with
                    | Except.ok val2 => Except.ok ⟨"id", Arg.int n, val2⟩
                    | Except.error e => Except.error e
                | Except.error PyErr.valueError => Except.error PyErr.traitError
                | Except.error e => Except.error e
              else Except.error PyErr.traitError
          | _ => Except.error PyErr.traitError
  | _ => Except.error PyErr.traitError

/-- The loop of `TelescopeParameter.validate` (lines 579-611): each
iteration validates one pattern, appends it, replaces the lookup with a
fresh one over the patterns so far (line 608) and, when the *input* value
was a pattern list with an attached subarray, immediately re-attaches it
(lines 610-611). -/
def validateLoop (ev : Py → Except PyErr Py) (inputSubarray : Option Subarray) :
    List (List Py) → TelescopePatternList Py → Except PyErr (TelescopePatternList Py)
  | [], acc => Except.ok acc
  | pattern :: rest, acc =>
      match validatePattern ev pattern with
      | Except.error e => Except.error e
      | Except.ok p =>
          match inputSubarray with
          | some s =>
              match TelescopePatternList.attach_subarray
                  ⟨acc.data ++ [p],
                    some (TelescopeParameterLookup.mk' (acc.data ++ [p])),
                    acc.subarray⟩ s with
              | Except.error e => Except.error e
              | Except.ok acc'' => validateLoop ev inputSubarray rest acc''
          | Option.none =>
              validateLoop ev inputSubarray rest
                ⟨acc.data ++ [p],
                  some (TelescopeParameterLookup.mk' (acc.data ++ [p])),
                  acc.subarray⟩

/-- The three shapes a raw assignment to a `TelescopeParameter` can take:
a scalar (anything that is not a list), a plain list of raw patterns
(each pattern modelled as the list of its three components), or an
already-normalized `TelescopePatternList`. -/
inductive RawValue where
  | scalar (v : Py)
  | plainList (patterns : List (List Py))
  | patternList (tpl : TelescopePatternList Py)

/-- Reading one component tuple back out of a normalized pattern list
(iterating a `TelescopePatternList` yields the stored tuples). -/
def argToPy : Arg → Py
  | Arg.str s => Py.str s
  | Arg.int n => Py.int n

/-- The tuple stored in a normalized pattern, as a raw value list. -/
def patternToPy (p : TelescopePattern Py) : List Py :=
  [Py.str p.command, argToPy p.argument, p.value]

/-- `TelescopeParameter.validate` (lines 570-613): a non-list value is
first rewritten into the single pattern `("type", "*", ev value)`
(lines 573-574), then every pattern of the list is validated and
normalized by `validateLoop`. -/
def TelescopeParameter.validate (ev : Py → Except PyErr Py) (value : RawValue) :
    Except PyErr (TelescopePatternList Py) :=
  match value with
  | RawValue.scalar v =>
      match ev v with
      | Except.error e => Except.error e
      | Except.ok v' =>
          validateLoop ev Option.none [[Py.str ("type"), Py.str ("*"), v']]
            ⟨[], Option.none, Option.none⟩
  | RawValue.plainList ps => validateLoop ev Option.none ps ⟨[], Option.none, Option.none⟩
  | RawValue.patternList tpl =>
      validateLoop ev tpl.subarray (tpl.data.map patternToPy) ⟨[], Option.none, Option.none⟩

/-- The scalar-to-pattern rewrite shared by `validate` and `set`
(lines 616-618): a non-list value becomes the single raw pattern
`("type", "*", ev value)`. -/
def scalarToList (ev : Py → Except PyErr Py) : RawValue → Except PyErr RawValue
  | RawValue.scalar v =>
      match ev v with
      | Except.error e => Except.error e
      | Except.ok v' => Except.ok (RawValue.plainList [[Py.str ("type"), Py.str ("*"), v']])
  | v => Except.ok v

/-- `TelescopeParameter.set` (lines 615-630): the scalar-to-pattern
rewrite, the validating store of the base class, and the re-attachment of
the previously stored value's subarray when one was attached.  `old` is
the previously stored trait value (or the default). -/
def TelescopeParameter.set (ev : Py → Except PyErr Py) (old : TelescopePatternList Py)
    (value : RawValue) : Except PyErr (TelescopePatternList Py) :=
  match scalarToList ev value with
  | Except.error e => Except.error e
  | Except.ok value' =>
      match TelescopeParameter.validate ev value' with
      | Except.error e => Except.error e
      | Except.ok newVal =>
          match old.subarray with
          | some s => newVal.attach_subarray s
          | Option.none => Except.ok newVal

/-! ### The `Path` trait (lines 97-202) -/

/-- Errors of `Path.validate`: `validationError` models `self.error`
(a `TraitError` for malformed input), the other four model the
`TraitError`s raised by the constraint checks of lines 189-200, whose
messages distinguish the four causes.  The spec calls the latter group
`PathConstraintError`. -/
inductive PathErr where
  | validationError
  | pathDoesNotExist
  | pathMustNotExist
  | pathIsDirectory
  | pathIsFile
deriving DecidableEq, Repr

/-- Whether an error belongs to the spec's `PathConstraintError` family. -/
def PathErr.isConstraint : PathErr → Bool
  | PathErr.validationError => false
  | _ => true

/-- Configuration of a `Path` trait (lines 111-122): `exists_` is the
`True`/`False`/`None` of the Python attribute. -/
structure PathTrait where
  exists_ : Option Bool
  directory_ok : Bool
  file_ok : Bool
  allow_none : Bool

/-- The filesystem as a collaborator: `pathlib.Path.absolute`,
`.exists`, `.is_dir`, `.is_file`. -/
structure FileSystem where
  absolute : String → String
  pathExists : String → Bool
  is_dir : String → Bool
  is_file : String → Bool

/-- The downloader and dataset-registry collaborators
(`download_cached` and `get_dataset_path`). -/
structure Collaborators where
  download_cached : String → String
  get_dataset_path : String → String

/-- Characters before the first `:` of a URI, and the rest. -/
def splitAtColon : List Char → Option (List Char × List Char)
  | [] => Option.none
  | c :: rest =>
      if c = ':' then some ([], rest)
      else (splitAtColon rest).map (fun pr => (c :: pr.1, pr.2))

/-- Characters allowed in a URI scheme by `urllib.parse`. -/
def isSchemeChar (c : Char) : Bool :=
  c.isAlphanum || c = '+' || c = '-' || c = '.'

/-- The scheme parsing of `urllib.parse.urlsplit`: the text before the
first `:` is a scheme when it is non-empty, starts with a letter and
consists of scheme characters; it is returned lowercased.  Otherwise the
scheme is empty and the input is left whole. -/
def parseScheme (s : List Char) : List Char × List Char :=
  match splitAtColon s with
  | some (pre, rest) =>
      match pre with
      | [] => ([], s)
      | c :: cs =>
          if c.isAlpha && (c :: cs).all isSchemeChar then ((c :: cs).map Char.toLower, rest)
          else ([], s)
  | Option.none => ([], s)

/-- A character ending the netloc component. -/
def isNetlocEnd (c : Char) : Bool :=
  c = '/' || c = '?' || c = '#'

/-- The components of `urlparse` used by `Path.validate`. -/
structure UrlParts where
  scheme : String
  netloc : String
  path : String
deriving DecidableEq, Repr

/-- Model of `urllib.parse.urlparse` restricted to the components this
code reads (scheme, netloc, path).  Query and fragment splitting is
omitted: no input this trait handles carries `?` or `#` components. -/
def urlparse (s : String) : UrlParts :=
  let (scheme, rest) := parseScheme s.data
  if rest.take 2 = ['/', '/'] then
    let after := rest.drop 2
    ⟨⟨scheme⟩, ⟨after.takeWhile (fun c => !isNetlocEnd c)⟩,
      ⟨after.dropWhile (fun c => !isNetlocEnd c)⟩⟩
  else ⟨⟨scheme⟩, "", ⟨rest⟩⟩

/-- The text after the first occurrence of `sub`, or empty when `sub`
does not occur: Python `s.partition(sub)[2]`. -/
def partitionAfterAux (sub : List Char) : List Char → List Char
  | [] => []
  | c :: cs =>
      if sub.isPrefixOf (c :: cs) then (c :: cs).drop sub.length
      else partitionAfterAux sub cs

/-- Python `s.partition(sub)[2]`. -/
def partitionAfter (sub s : String) : String :=
  ⟨partitionAfterAux sub.data s.data⟩

/-- Model of `pathlib.Path(netloc, path)` rendered back to a string: an
absolute second component discards the first, empty components
disappear, and the empty path renders as `.`. -/
def pathJoin (a b : String) : String :=
  if b.startsWith ("/") then b
  else if a = "" then (if b = "" then "." else b)
  else if b = "" then a
  else a ++ "/" ++ b

/-- The scheme dispatch of `Path.validate` (lines 161-185), applied to
the expanded string value: the empty string is rejected (line 162),
`http`/`https` delegate to the caching downloader with the full value,
`dataset` delegates to the dataset registry with the text after
`dataset://`, an empty scheme or `file` builds a local path from netloc
and path, and any other scheme is rejected. -/
def resolveStr (collab : Collaborators) (s : String) : Except PathErr String :=
  if s = "" then Except.error PathErr.validationError
  else if (urlparse s).scheme = "http" ∨ (urlparse s).scheme = "https" then
    Except.ok (collab.download_cached s)
  else if (urlparse s).scheme = "dataset" then
    Except.ok (collab.get_dataset_path (partitionAfter ("dataset://") s))
  else if (urlparse s).scheme = "" ∨ (urlparse s).scheme = "file" then
    Except.ok (pathJoin (urlparse s).netloc (urlparse s).path)
  else Except.error PathErr.validationError

/-- The kind checks of lines 196-200, run when the path exists. -/
def kindCheck (t : PathTrait) (fs : FileSystem) (value : String) (ex : Bool) :
    Except PathErr String :=
  if ex && !t.directory_ok && fs.is_dir value then Except.error PathErr.pathIsDirectory
  else if ex && !t.file_ok && fs.is_file value then Except.error PathErr.pathIsFile
  else Except.ok value

/-- The constraint phase of `Path.validate` (lines 187-202): absolutize,
compare actual existence against the `exists` constraint (line 189-195,
with the "does not exist" message for a required path and the "must not
exist" message for a forbidden one), then check the directory/file kind. -/
def checkConstraints (t : PathTrait) (fs : FileSystem) (p : String) : Except PathErr String :=
  match t.exists_ with
  | some b =>
      if fs.pathExists (fs.absolute p) ≠ b then
        Except.error (if b then PathErr.pathDoesNotExist else PathErr.pathMustNotExist)
      else kindCheck t fs (fs.absolute p) (fs.pathExists (fs.absolute p))
  | Option.none => kindCheck t fs (fs.absolute p) (fs.pathExists (fs.absolute p))

/-- The raw values a `Path` trait can receive: text, byte-strings
(decoded by `os.fsdecode`), `pathlib.Path` objects, `None`/`Undefined`,
or anything else (rejected by the isinstance check of line 155). -/
inductive PathValue where
  | str (s : String)
  | bytes (s : String)
  | path (s : String)
  | none
  | undefined
  | other

/-- `Path.validate` (lines 145-202).  `expandvars` is the environment
expansion collaborator (`os.path.expandvars`); it also converts a
`pathlib.Path` input to text via `os.fspath`, so `str` and `path` inputs
follow the same route through the URL dispatch. -/
def PathTrait.validate (t : PathTrait) (fs : FileSystem) (collab : Collaborators)
    (expandvars : String → String) (value : PathValue) : Except PathErr (Option String) :=
  match value with
  | PathValue.none =>
      if t.allow_none then Except.ok Option.none else Except.error PathErr.validationError
  | PathValue.undefined =>
      if t.allow_none then Except.ok Option.none else Except.error PathErr.validationError
  | PathValue.other => Except.error PathErr.validationError
  | PathValue.str s =>
      match resolveStr collab (expandvars s) with
      | Except.error e => Except.error e
      | Except.ok p =>
          match checkConstraints t fs p with
          | Except.error e => Except.error e
          | Except.ok r => Except.ok (some r)
  | PathValue.bytes s =>
      match resolveStr collab (expandvars s) with
      | Except.error e => Except.error e
      | Except.ok p =>
          match checkConstraints t fs p with
          | Except.error e => Except.error e
          | Except.ok r => Except.ok (some r)
  | PathValue.path s =>
      match resolveStr collab (expandvars s) with
      | Except.error e => Except.error e
      | Except.ok p =>
          match checkConstraints t fs p with
          | Except.error e => Except.error e
          | Except.ok r => Except.ok (some r)

/-! ### Predicates used to state the claims -/

/-- A pattern whose argument compares equal to the string `"*"`
(the condition of the constructor scan, line 399). -/
def isStarArg {V : Type} (p : TelescopePattern V) : Bool :=
  decide (p.argument = Arg.str ("*"))

/-- A `("type", "*", _)` pattern. -/
def isStarType {V : Type} (p : TelescopePattern V) : Bool :=
  decide (p.command = "type") && decide (p.argument = Arg.str ("*"))

/-- A pattern of the shape trait validation produces: a `type` command
with a string argument or an `id` command with an integer argument.
This is the RuleSet data model of the spec. -/
def WellFormedPattern {V : Type} (p : TelescopePattern V) : Prop :=
  (p.command = "type" ∧ ∃ s, p.argument = Arg.str s) ∨
    (p.command = "id" ∧ ∃ n, p.argument = Arg.int n)

/-- The invariant `TelescopeParameter.validate` maintains on its
accumulator: whenever a lookup is registered, it was built from exactly
the rules stored so far (so its parameter list and construction-time
global value are those of `data`). -/
def LookupConsistent (tpl : TelescopePatternList Py) : Prop :=
  ∀ lk, tpl.lookup = some lk →
    lk.telescope_parameter_list = tpl.data ∧
      lk.subarray_global_value = scanGlobalValue tpl.data

/-! ### Concrete instances used by the witnesses -/

/-- A small concrete catalog: two telescope types with members
`5, 7` and `9`. -/
def demoSubarray : Subarray :=
  { telescope_types := ["LST_X", "MST_Y"]
    get_tel_ids_for_type := fun t =>
      if t = "LST_X" then [5, 7] else if t = "MST_Y" then [9] else [] }

/-- A second concrete catalog, disjoint from `demoSubarray`. -/
def demoSubarray2 : Subarray :=
  { telescope_types := ["SST_Z"]
    get_tel_ids_for_type := fun t => if t = "SST_Z" then [11] else [] }

/-- The identity inner trait: every value is already valid. -/
def okTrait : Py → Except PyErr Py := fun v => Except.ok v

/-- The concrete rule set of the list-order-precedence claim:
an `id` rule for telescope 5, then a global `type` wildcard. -/
def demoC1Rules : List (TelescopePattern Int) :=
  [⟨"id", Arg.int 5, 9⟩, ⟨"type", Arg.str ("*"), 1⟩]

/-- The lookup obtained by binding `demoC1Rules` to `demoSubarray`. -/
def demoC1Lookup : TelescopeParameterLookup Int :=
  { telescope_parameter_list := demoC1Rules
    value_for_tel_id := some [(5, 1), (7, 1), (9, 1)]
    value_for_type := some [("LST_X", 1), ("MST_Y", 1)]
    subarray := some demoSubarray
    subarray_global_value := some 1
    type_strs := some ["LST_X", "MST_Y"] }

/-- The single rule produced by normalizing the scalar `4`. -/
def demoC2Pattern : TelescopePattern Py := ⟨"type", Arg.str ("*"), Py.int 4⟩

/-- The lookup obtained by binding the normalized scalar to
`demoSubarray`. -/
def demoC2Lookup : TelescopeParameterLookup Py :=
  { telescope_parameter_list := [demoC2Pattern]
    value_for_tel_id := some [(5, Py.int 4), (7, Py.int 4), (9, Py.int 4)]
    value_for_type := some [("LST_X", Py.int 4), ("MST_Y", Py.int 4)]
    subarray := some demoSubarray
    subarray_global_value := some (Py.int 4)
    type_strs := some ["LST_X", "MST_Y"] }

/-- The pattern list produced by validating the scalar `4`. -/
def demoC2TPL : TelescopePatternList Py :=
  ⟨[demoC2Pattern], some (TelescopeParameterLookup.mk' [demoC2Pattern]), Option.none⟩

/-- `demoC2TPL` after attaching `demoSubarray`. -/
def demoC2Attached : TelescopePatternList Py :=
  ⟨[demoC2Pattern], some demoC2Lookup, some demoSubarray⟩

/-- A previously stored pattern-list value with an attached catalog
(only its `subarray` attribute is consulted by `set`). -/
def demoC6Old : TelescopePatternList Py := ⟨[], Option.none, some demoSubarray⟩

/-- The lookup obtained by re-binding the reassigned rule set
`[(id, 5, 42)]` to the previously attached catalog. -/
def demoC6Lookup : TelescopeParameterLookup Py :=
  { telescope_parameter_list := [⟨"id", Arg.int 5, Py.int 42⟩]
    value_for_tel_id := some [(5, Py.int 42)]
    value_for_type := some []
    subarray := some demoSubarray
    subarray_global_value := Option.none
    type_strs := some ["LST_X", "MST_Y"] }

/-- The stored value after reassigning `[(id, 5, 42)]` over `demoC6Old`. -/
def demoC6New : TelescopePatternList Py :=
  ⟨[⟨"id", Arg.int 5, Py.int 42⟩], some demoC6Lookup, some demoSubarray⟩

/-- A rule set with no wildcard rule at all. -/
def demoC4Rules : List (TelescopePattern Int) := [⟨"id", Arg.int 5, 1⟩]

/-- The lookup obtained by binding `demoC4Rules` to `demoSubarray`. -/
def demoC4Lookup : TelescopeParameterLookup Int :=
  { telescope_parameter_list := demoC4Rules
    value_for_tel_id := some [(5, 1)]
    value_for_type := some []
    subarray := some demoSubarray
    subarray_global_value := Option.none
    type_strs := some ["LST_X", "MST_Y"] }

/-- A rule set in which the *last* rule whose argument is the string
`"*"` is an `id` rule (possible only for a lookup built directly,
without trait validation). -/
def demoC10Rules : List (TelescopePattern Int) :=
  [⟨"type", Arg.str ("*"), 2⟩, ⟨"id", Arg.str ("*"), 3⟩]

/-- A single-id rule set used by the re-attachment claim. -/
def demoC5Rules : List (TelescopePattern Int) := [⟨"id", Arg.int 3, 2⟩]

/-- The lookup obtained by binding `demoC5Rules` to `demoSubarray`. -/
def demoC5Lookup : TelescopeParameterLookup Int :=
  { telescope_parameter_list := demoC5Rules
    value_for_tel_id := some [(3, 2)]
    value_for_type := some []
    subarray := some demoSubarray
    subarray_global_value := Option.none
    type_strs := some ["LST_X", "MST_Y"] }

/-- Concrete collaborators: an identity downloader and a dataset
registry rooted at `/fixtures`. -/
def demoCollab : Collaborators :=
  { download_cached := fun u => u
    get_dataset_path := fun n => "/fixtures/" ++ n }

/-- A concrete filesystem in which nothing exists and absolutization
prefixes `/abs/`. -/
def demoFS : FileSystem :=
  { absolute := fun p => "/abs/" ++ p
    pathExists := fun _ => false
    is_dir := fun _ => false
    is_file := fun _ => false }

/-! ### Basic lemmas about the embedded operations -/

theorem dictGet_insert_self {K V : Type} [DecidableEq K] (m : List (K × V)) (k : K) (v : V) :
    dictGet (dictInsert m k v) k = some v := by
  induction m with
  | nil => simp [dictInsert, dictGet]
  | cons hd tl ih =>
      obtain ⟨k', v'⟩ := hd
      by_cases h : k' = k
      · simp [dictInsert, dictGet, h]
      · simp [dictInsert, dictGet, h, ih]

theorem dictGet_insert_ne {K V : Type} [DecidableEq K] (m : List (K × V)) (k k' : K) (v : V)
    (h : k' ≠ k) : dictGet (dictInsert m k' v) k = dictGet m k := by
  induction m with
  | nil => simp [dictInsert, dictGet, h]
  | cons hd tl ih =>
      obtain ⟨a, b⟩ := hd
      simp only [dictInsert]
      by_cases h2 : a = k'
      · subst h2
        simp [dictGet, h]
      · rw [if_neg h2]
        by_cases h3 : a = k
        · simp [dictGet, h3]
        · simp [dictGet, h3, ih]

theorem dictGet_foldl_insert_pres {K V : Type} [DecidableEq K] (ids : List K) (m : List (K × V))
    (k : K) (v : V) (h : dictGet m k = some v) :
    dictGet (ids.foldl (fun m' j => dictInsert m' j v) m) k = some v := by
  induction ids generalizing m with
  | nil => simpa using h
  | cons j tl ih =>
      simp only [List.foldl_cons]
      apply ih
      by_cases hj : j = k
      · subst hj
        exact dictGet_insert_self m j v
      · rw [dictGet_insert_ne m k j v hj]
        exact h

theorem dictGet_foldl_insert_mem {K V : Type} [DecidableEq K] (ids : List K) (m : List (K × V))
    (k : K) (v : V) (h : k ∈ ids) :
    dictGet (ids.foldl (fun m' j => dictInsert m' j v) m) k = some v := by
  induction ids generalizing m with
  | nil => cases h
  | cons j tl ih =>
      simp only [List.foldl_cons]
      rcases List.mem_cons.mp h with hj | htl
      · subst hj
        exact dictGet_foldl_insert_pres tl _ k v (dictGet_insert_self m k v)
      · exact ih _ htl

theorem globMatch_star (cs : List Char) : globMatch ['*'] cs = true := by
  induction cs with
  | nil => simp [globMatch]
  | cons c tl ih => simp [globMatch, ih]

theorem fnmatch_star (s : String) : fnmatch s ("*") = true :=
  globMatch_star s.data

theorem filter_fnmatch_star (l : List String) :
    l.filter (fun t => fnmatch t ("*")) = l :=
  List.filter_eq_self.mpr (fun a _ => fnmatch_star a)

theorem applyTypeMatch_pres {V : Type} (sub : Subarray) (v : V) (st : AttachState V)
    (t : String) (i : Int) (h : dictGet st.value_for_tel_id i = some v) :
    dictGet (applyTypeMatch sub v st t).value_for_tel_id i = some v :=
  dictGet_foldl_insert_pres _ _ i v h

theorem foldl_applyTypeMatch_pres {V : Type} (sub : Subarray) (v : V) (ts : List String)
    (st : AttachState V) (i : Int) (h : dictGet st.value_for_tel_id i = some v) :
    dictGet ((ts.foldl (applyTypeMatch sub v) st)).value_for_tel_id i = some v := by
  induction ts generalizing st with
  | nil => simpa using h
  | cons t tl ih =>
      simp only [List.foldl_cons]
      exact ih _ (applyTypeMatch_pres sub v st t i h)

theorem foldl_applyTypeMatch_mem {V : Type} (sub : Subarray) (v : V) (ts : List String)
    (st : AttachState V) (t : String) (i : Int) (ht : t ∈ ts)
    (hi : i ∈ sub.get_tel_ids_for_type t) :
    dictGet ((ts.foldl (applyTypeMatch sub v) st)).value_for_tel_id i = some v := by
  induction ts generalizing st with
  | nil => cases ht
  | cons t0 tl ih =>
      simp only [List.foldl_cons]
      rcases List.mem_cons.mp ht with h0 | htl
      · subst h0
        exact foldl_applyTypeMatch_pres sub v tl _ i
          (dictGet_foldl_insert_mem _ _ i v hi)
      · exact ih _ htl

/-! ### Structural lemmas about `attach_subarray` and the global value -/

theorem attach_subarray_pres {V : Type} (lk lk' : TelescopeParameterLookup V) (sub : Subarray)
    (h : lk.attach_subarray sub = Except.ok lk') :
    lk'.telescope_parameter_list = lk.telescope_parameter_list ∧
      lk'.subarray_global_value = lk.subarray_global_value ∧
      ∃ m, lk'.value_for_tel_id = some m := by
  unfold TelescopeParameterLookup.attach_subarray at h
  cases heq : attachLoop sub lk.telescope_parameter_list ⟨[], []⟩ with
  | error e => rw [heq] at h; cases h
  | ok st =>
      rw [heq] at h
      cases h
      exact ⟨rfl, rfl, st.value_for_tel_id, rfl⟩

theorem attach_subarray_congr {V : Type} (lk lk2 : TelescopeParameterLookup V) (sub : Subarray)
    (h1 : lk.telescope_parameter_list = lk2.telescope_parameter_list)
    (h2 : lk.subarray_global_value = lk2.subarray_global_value) :
    lk.attach_subarray sub = lk2.attach_subarray sub := by
  obtain ⟨l1, a1, b1, c1, d1, e1⟩ := lk
  obtain ⟨l2, a2, b2, c2, d2, e2⟩ := lk2
  simp only at h1 h2
  subst h1
  subst h2
  unfold TelescopeParameterLookup.attach_subarray
  cases attachLoop sub l1 ⟨[], []⟩ <;> rfl

theorem attachMany_pres {V : Type} (cs : List Subarray) (lk lk' : TelescopeParameterLookup V)
    (h : attachMany lk cs = Except.ok lk') :
    lk'.telescope_parameter_list = lk.telescope_parameter_list ∧
      lk'.subarray_global_value = lk.subarray_global_value := by
  induction cs generalizing lk with
  | nil =>
      unfold attachMany at h
      cases h
      exact ⟨rfl, rfl⟩
  | cons c tl ih =>
      unfold attachMany at h
      cases hat : lk.attach_subarray c with
      | error e => rw [hat] at h; cases h
      | ok lk1 =>
          rw [hat] at h
          obtain ⟨p1, p2⟩ := ih lk1 h
          obtain ⟨q1, q2, _⟩ := attach_subarray_pres lk lk1 c hat
          exact ⟨p1.trans q1, p2.trans q2⟩

theorem find?_congr_mem {α : Type} (p q : α → Bool) (l : List α) (h : ∀ a ∈ l, p a = q a) :
    l.find? p = l.find? q := by
  induction l with
  | nil => rfl
  | cons a tl ih =>
      have ha : p a = q a := h a (List.mem_cons_self a tl)
      cases hpa : p a with
      | true => simp [List.find?, hpa, ← ha]
      | false =>
          simp only [List.find?, hpa, ← ha]
          exact ih (fun x hx => h x (List.mem_cons_of_mem a hx))

theorem scanGlobalValue_aux {V : Type} (l : List (TelescopePattern V)) (acc : Option V) :
    l.foldl (fun acc p => if p.argument = Arg.str ("*") then some p.value else acc) acc
      = match l.reverse.find? isStarArg with
        | some p => some p.value
        | Option.none => acc := by
  induction l generalizing acc with
  | nil => rfl
  | cons p tl ih =>
      simp only [List.foldl_cons, List.reverse_cons]
      rw [ih]
      rw [List.find?_append]
      cases hf : tl.reverse.find? isStarArg with
      | some q => simp
      | none =>
          simp only [Option.none_orElse]
          by_cases hp : p.argument = Arg.str ("*")
          · simp [List.find?, isStarArg, hp]
          · simp [List.find?, isStarArg, hp]

theorem scanGlobalValue_eq_find {V : Type} (l : List (TelescopePattern V)) :
    scanGlobalValue l
      = match l.reverse.find? isStarArg with
        | some p => some p.value
        | Option.none => Option.none :=
  scanGlobalValue_aux l Option.none

theorem get_none_eq {V : Type} (lk : TelescopeParameterLookup V) :
    lk.get LookupKey.none
      = match lk.subarray_global_value with
        | some v => Except.ok v
        | Option.none => Except.error LookupErr.noDefault := rfl

theorem attachLoop_id_then_star {V : Type} (v1 v2 : V) (c : Subarray) :
    attachLoop c [⟨"id", Arg.int 5, v1⟩, ⟨"type", Arg.str ("*"), v2⟩] ⟨[], []⟩
      = Except.ok (c.telescope_types.foldl (applyTypeMatch c v2) ⟨[(5, v1)], []⟩) := by
  simp [attachLoop, applyPattern, argToInt, dictInsert, filter_fnmatch_star]

theorem tpl_attach_pres {V : Type} (tpl tpl' : TelescopePatternList V) (sub : Subarray)
    (h : tpl.attach_subarray sub = Except.ok tpl') :
    tpl'.data = tpl.data ∧ tpl'.subarray = some sub ∧
      ∃ lk lk', tpl.lookup = some lk ∧ tpl'.lookup = some lk' ∧
        lk.attach_subarray sub = Except.ok lk' := by
  unfold TelescopePatternList.attach_subarray at h
  split at h
  · cases h
  · rename_i lk hlk
    split at h
    · cases h
    · rename_i lk' hat
      cases h
      exact ⟨rfl, rfl, lk, lk', hlk, rfl, hat⟩

theorem validateLoop_consistent (ev : Py → Except PyErr Py) (isub : Option Subarray)
    (ps : List (List Py)) (acc out : TelescopePatternList Py)
    (hacc : LookupConsistent acc) (h : validateLoop ev isub ps acc = Except.ok out) :
    LookupConsistent out := by
  induction ps generalizing acc with
  | nil =>
      unfold validateLoop at h
      cases h
      exact hacc
  | cons pattern rest ih =>
      unfold validateLoop at h
      split at h
      · cases h
      · rename_i p hvp
        have hacc' : LookupConsistent
            ⟨acc.data ++ [p], some (TelescopeParameterLookup.mk' (acc.data ++ [p])),
              acc.subarray⟩ := by
          intro lk hlk
          cases hlk
          exact ⟨rfl, rfl⟩
        split at h
        · rename_i s
          split at h
          · cases h
          · rename_i acc'' hat
            have hacc'' : LookupConsistent acc'' := by
              obtain ⟨hdata, hsub2, lk, lk', hlk, hlk', hat2⟩ :=
                tpl_attach_pres _ acc'' s hat
              obtain ⟨q1, q2, -⟩ := attach_subarray_pres lk lk' s hat2
              obtain ⟨r1, r2⟩ := hacc' lk hlk
              intro lk2 hlk2
              rw [hlk'] at hlk2
              cases hlk2
              rw [hdata]
              exact ⟨q1.trans r1, q2.trans r2⟩
            exact ih _ hacc'' h
        · exact ih _ hacc' h

theorem validate_consistent (ev : Py → Except PyErr Py) (raw : RawValue)
    (tpl : TelescopePatternList Py)
    (h : TelescopeParameter.validate ev raw = Except.ok tpl) : LookupConsistent tpl := by
  have hinit : LookupConsistent ⟨[], Option.none, Option.none⟩ := by
    intro lk hlk
    cases hlk
  unfold TelescopeParameter.validate at h
  split at h
  · split at h
    · cases h
    · exact validateLoop_consistent ev Option.none _ _ tpl hinit h
  · exact validateLoop_consistent ev Option.none _ _ tpl hinit h
  · exact validateLoop_consistent ev _ _ _ tpl hinit h

theorem get_ne_notBound {V : Type} (lk : TelescopeParameterLookup V)
    (m : List (Int × V)) (hm : lk.value_for_tel_id = some m) (k : LookupKey)
    (hk : k ≠ LookupKey.none) : lk.get k ≠ Except.error LookupErr.notBound := by
  cases k with
  | none => exact absurd rfl hk
  | id n =>
      simp only [TelescopeParameterLookup.get, hm]
      cases dictGet m n <;> simp
  | type s =>
      simp only [TelescopeParameterLookup.get, hm]
      split
      · cases dictGet (lk.value_for_type.getD []) s <;> simp
      · simp

theorem attachLoop_star {V : Type} (v : V) (c : Subarray) :
    attachLoop c [⟨"type", Arg.str ("*"), v⟩] ⟨[], []⟩
      = Except.ok (c.telescope_types.foldl (applyTypeMatch c v) ⟨[], []⟩) := by
  simp [attachLoop, applyPattern, filter_fnmatch_star]

/-! ### Lemmas about the URL parsing model -/

theorem splitAtColon_concat (pre rest : List Char) (h : ':' ∉ pre) :
    splitAtColon (pre ++ ':' :: rest) = some (pre, rest) := by
  induction pre with
  | nil => simp [splitAtColon]
  | cons c cs ih =>
      have hc : c ≠ ':' := fun hcc => h (hcc ▸ List.mem_cons_self c cs)
      have hcs : ':' ∉ cs := fun hmem => h (List.mem_cons_of_mem c hmem)
      simp only [List.cons_append, splitAtColon, if_neg hc, List.append_eq]
      rw [ih hcs]
      rfl

theorem isPrefixOf_append_self (l t : List Char) : l.isPrefixOf (l ++ t) = true := by
  induction l with
  | nil => simp [List.isPrefixOf]
  | cons c cs ih => simp [List.isPrefixOf, ih]

theorem partitionAfter_head_match (name : String) :
    partitionAfter ("dataset://") ("dataset://" ++ name) = name := by
  obtain ⟨l⟩ := name
  have hp : ("dataset://").data.isPrefixOf ('d' :: (("ataset://").data ++ l)) = true :=
    isPrefixOf_append_self ("dataset://").data l
  show String.mk (partitionAfterAux ("dataset://").data ('d' :: (("ataset://").data ++ l)))
      = ⟨l⟩
  simp only [partitionAfterAux, hp, if_true]
  show String.mk (List.drop ("dataset://").data.length (("dataset://").data ++ l)) = ⟨l⟩
  rw [List.drop_left]

theorem urlparse_dataset_scheme (name : String) :
    (urlparse ("dataset://" ++ name)).scheme = "dataset" := by
  obtain ⟨l⟩ := name
  have hsplit : splitAtColon ("dataset://" ++ String.mk l).data
      = some ('d' :: ("ataset").data, '/' :: '/' :: l) := by
    rw [show ("dataset://" ++ String.mk l).data
        = ('d' :: ("ataset").data) ++ ':' :: ('/' :: '/' :: l) from rfl]
    exact splitAtColon_concat _ _ (by decide)
  have hscheme : parseScheme ("dataset://" ++ String.mk l).data
      = (("dataset").data, '/' :: '/' :: l) := by
    unfold parseScheme
    rw [hsplit]
    dsimp only
    rw [if_pos (by decide : ('d'.isAlpha && (('d' :: ("ataset").data).all isSchemeChar))
        = true)]
    rw [show List.map Char.toLower ('d' :: ("ataset").data) = ("dataset").data from by decide]
  unfold urlparse
  rw [hscheme]
  dsimp only
  rw [if_pos (show List.take 2 ('/' :: '/' :: l) = ['/', '/'] from rfl)]

/-! ### Claim theorems -/

/-- C1: resolution uses strict list-order precedence.  For the rule set
`[(id, 5, v1), (type, "*", v2)]` bound to any catalog in which telescope
`5` belongs to some known type, the later `type` rule overwrites the
earlier `id` rule: lookup of id `5` returns `v2`, regardless of
specificity. -/
theorem later_rule_overwrites_earlier {V : Type} (v1 v2 : V) (c : Subarray)
    (lk' : TelescopeParameterLookup V)
    (hmem : ∃ t, t ∈ c.telescope_types ∧ (5 : Int) ∈ c.get_tel_ids_for_type t)
    (hat : (TelescopeParameterLookup.mk'
        [⟨"id", Arg.int 5, v1⟩, ⟨"type", Arg.str ("*"), v2⟩]).attach_subarray c
      = Except.ok lk') :
    lk'.get (LookupKey.id 5) = Except.ok v2 := by
  obtain ⟨t, ht, hi⟩ := hmem
  unfold TelescopeParameterLookup.attach_subarray at hat
  rw [show (TelescopeParameterLookup.mk'
      [⟨"id", Arg.int 5, v1⟩, ⟨"type", Arg.str ("*"), v2⟩]).telescope_parameter_list
      = [⟨"id", Arg.int 5, v1⟩, ⟨"type", Arg.str ("*"), v2⟩] from rfl] at hat
  rw [attachLoop_id_then_star] at hat
  cases hat
  simp only [TelescopeParameterLookup.get]
  rw [foldl_applyTypeMatch_mem c v2 c.telescope_types ⟨[(5, v1)], []⟩ t 5 ht hi]

/-- Witness for C1: the rule set `[(id,5,9), (type,"*",1)]` bound to the
demo catalog resolves id 5 to the later rule's value 1. -/
theorem later_rule_overwrites_earlier_witness :
    demoC1Lookup.get (LookupKey.id 5) = Except.ok (1 : Int) := by
  have hat : (TelescopeParameterLookup.mk' demoC1Rules).attach_subarray demoSubarray
      = Except.ok demoC1Lookup := by
    unfold TelescopeParameterLookup.attach_subarray
    rw [show (TelescopeParameterLookup.mk' demoC1Rules).telescope_parameter_list
        = [⟨"id", Arg.int 5, (9 : Int)⟩, ⟨"type", Arg.str ("*"), 1⟩] from rfl]
    rw [attachLoop_id_then_star]
    rfl
  exact later_rule_overwrites_earlier 9 1 demoSubarray demoC1Lookup
    ⟨"LST_X", by decide, by decide⟩ hat

/-- Counterexample to C3 as stated: for the rule set
`[("type", "*", 1)]`, lookup of `None` on a never-attached resolver does
not fail with `NotBound` — it returns `1` from the construction-time
global value. -/
theorem lookup_before_attach_cex :
    (TelescopeParameterLookup.mk'
        [⟨"type", Arg.str ("*"), (1 : Int)⟩]).get LookupKey.none = Except.ok 1 ∧
    (TelescopeParameterLookup.mk'
        [⟨"type", Arg.str ("*"), (1 : Int)⟩]).get LookupKey.none
      ≠ Except.error LookupErr.notBound := by
  have h1 : (TelescopeParameterLookup.mk'
      [⟨"type", Arg.str ("*"), (1 : Int)⟩]).get LookupKey.none = Except.ok 1 := rfl
  refine ⟨h1, fun h => ?_⟩
  rw [h1] at h
  exact Except.noConfusion h

/-- C3 (amended): before `attach` has ever been called, lookup by an
integer identifier or by a type name fails with `NotBound`; lookup of
`None`, however, never fails with `NotBound`: it is served from the
construction-time global value — the last `"*"` rule's value if one
exists, and the `NoDefault` error otherwise. -/
theorem lookup_before_attach (V : Type) (l : List (TelescopePattern V)) :
    (∀ k, k ≠ LookupKey.none →
      (TelescopeParameterLookup.mk' l).get k = Except.error LookupErr.notBound) ∧
    (TelescopeParameterLookup.mk' l).get LookupKey.none
      = (match scanGlobalValue l with
         | some v => Except.ok v
         | Option.none => Except.error LookupErr.noDefault) := by
  refine ⟨fun k hk => ?_, rfl⟩
  cases k with
  | none => exact absurd rfl hk
  | id n => rfl
  | type s => rfl

/-- Witness for the amended C3: an id lookup on a freshly built,
never-attached resolver fails with `NotBound`. -/
theorem lookup_before_attach_witness :
    (TelescopeParameterLookup.mk' demoC4Rules).get (LookupKey.id 5)
      = Except.error LookupErr.notBound :=
  (lookup_before_attach Int demoC4Rules).1 (LookupKey.id 5) (by decide)

/-- C10: the global default is fixed at construction from the rule list
alone — it is the value of the last rule whose argument is the string
`"*"` (whatever its command), it is served even before any attach, and
it is unchanged by any sequence of successful attach calls. -/
theorem global_default_fixed_at_construction {V : Type} (l : List (TelescopePattern V))
    (p0 : TelescopePattern V) (hfind : l.reverse.find? isStarArg = some p0) :
    (TelescopeParameterLookup.mk' l).get LookupKey.none = Except.ok p0.value ∧
    ∀ cs lk', attachMany (TelescopeParameterLookup.mk' l) cs = Except.ok lk' →
      lk'.get LookupKey.none = Except.ok p0.value := by
  have hscan : scanGlobalValue l = some p0.value := by
    rw [scanGlobalValue_eq_find, hfind]
  have hmk : (TelescopeParameterLookup.mk' l).subarray_global_value = some p0.value := hscan
  constructor
  · rw [get_none_eq, hmk]
  · intro cs lk' h
    rw [get_none_eq, (attachMany_pres cs _ _ h).2, hmk]

/-- Witness for C10: in `demoC10Rules` the last `"*"`-argument rule is an
`id` rule with value 3; lookup of `None` returns 3 with no attach call. -/
theorem global_default_fixed_at_construction_witness :
    (TelescopeParameterLookup.mk' demoC10Rules).get LookupKey.none = Except.ok 3 :=
  (global_default_fixed_at_construction demoC10Rules
    ⟨"id", Arg.str ("*"), 3⟩ (by decide)).1

/-- C4: for a well-formed rule set (type rules carry strings, id rules
integers), lookup of `None` fails with `NoDefault` — before attach and
after any number of attach calls — exactly when no `("type", "*", _)`
rule exists; when such rules exist, it returns the value of the last
one. -/
theorem lookup_none_noDefault_iff_no_star {V : Type} (l : List (TelescopePattern V))
    (hwf : ∀ p ∈ l, WellFormedPattern p) :
    ((∀ p ∈ l, ¬(p.command = "type" ∧ p.argument = Arg.str ("*"))) →
      ∀ cs lk', attachMany (TelescopeParameterLookup.mk' l) cs = Except.ok lk' →
        lk'.get LookupKey.none = Except.error LookupErr.noDefault) ∧
    (∀ p0, l.reverse.find? isStarType = some p0 →
      ∀ cs lk', attachMany (TelescopeParameterLookup.mk' l) cs = Except.ok lk' →
        lk'.get LookupKey.none = Except.ok p0.value) := by
  have hagree : ∀ p ∈ l, isStarArg p = isStarType p := by
    intro p hp
    rcases hwf p hp with ⟨hc, s, ha⟩ | ⟨hc, n, ha⟩
    · simp [isStarArg, isStarType, hc]
    · simp [isStarArg, isStarType, hc, ha]
  have hfind : l.reverse.find? isStarArg = l.reverse.find? isStarType :=
    find?_congr_mem _ _ _ (fun a ha => hagree a (List.mem_reverse.mp ha))
  constructor
  · intro hno cs lk' h
    have hnone : l.reverse.find? isStarType = Option.none := by
      rw [List.find?_eq_none]
      intro p hp
      have hwfp := hwf p (List.mem_reverse.mp hp)
      have hnop := hno p (List.mem_reverse.mp hp)
      simp only [isStarType, Bool.and_eq_true, decide_eq_true_eq]
      rintro ⟨h1, h2⟩
      exact hnop ⟨h1, h2⟩
    have hscan : scanGlobalValue l = Option.none := by
      rw [scanGlobalValue_eq_find, hfind, hnone]
    rw [get_none_eq, (attachMany_pres cs _ _ h).2,
      show (TelescopeParameterLookup.mk' l).subarray_global_value = scanGlobalValue l
        from rfl, hscan]
  · intro p0 hp0 cs lk' h
    have hscan : scanGlobalValue l = some p0.value := by
      rw [scanGlobalValue_eq_find, hfind, hp0]
    rw [get_none_eq, (attachMany_pres cs _ _ h).2,
      show (TelescopeParameterLookup.mk' l).subarray_global_value = scanGlobalValue l
        from rfl, hscan]

/-- Witness for C4: the rule set `[(id, 5, 1)]` has no wildcard rule;
after one attach, lookup of `None` fails with `NoDefault`. -/
theorem lookup_none_noDefault_iff_no_star_witness :
    demoC4Lookup.get LookupKey.none = Except.error LookupErr.noDefault := by
  have hwf : ∀ p ∈ demoC4Rules, WellFormedPattern p := by
    intro p hp
    rw [show demoC4Rules = [⟨"id", Arg.int 5, (1 : Int)⟩] from rfl,
      List.mem_singleton] at hp
    subst hp
    exact Or.inr ⟨rfl, 5, rfl⟩
  have hno : ∀ p ∈ demoC4Rules, ¬(p.command = "type" ∧ p.argument = Arg.str ("*")) := by
    intro p hp
    rw [show demoC4Rules = [⟨"id", Arg.int 5, (1 : Int)⟩] from rfl,
      List.mem_singleton] at hp
    subst hp
    rintro ⟨hc, -⟩
    exact absurd hc (by decide)
  exact (lookup_none_noDefault_iff_no_star demoC4Rules hwf).1 hno
    [demoSubarray] demoC4Lookup rfl

/-- C5: `attach` fully recomputes the lookup state from the rule list
alone — attaching catalog `c` and then `c'` yields exactly the state a
freshly constructed resolver would reach by attaching `c'` directly; no
entry derived from `c` survives. -/
theorem attach_recomputes_from_scratch {V : Type} (l : List (TelescopePattern V))
    (c c' : Subarray) (lk1 : TelescopeParameterLookup V)
    (h : (TelescopeParameterLookup.mk' l).attach_subarray c = Except.ok lk1) :
    lk1.attach_subarray c' = (TelescopeParameterLookup.mk' l).attach_subarray c' := by
  obtain ⟨h1, h2, -⟩ := attach_subarray_pres _ _ _ h
  exact attach_subarray_congr lk1 (TelescopeParameterLookup.mk' l) c' h1 h2

/-- C2: a scalar raw value is normalized to the single rule
`("type", "*", v)`, and after binding to any catalog, lookup of `None`
and lookup of every telescope id in the catalog return `v`. -/
theorem scalar_value_covers_catalog (ev : Py → Except PyErr Py) (v : Py)
    (tpl : TelescopePatternList Py) (hev : ev v = Except.ok v)
    (hval : TelescopeParameter.validate ev (RawValue.scalar v) = Except.ok tpl) :
    tpl.data = [⟨"type", Arg.str ("*"), v⟩] ∧
    ∀ c tpl', tpl.attach_subarray c = Except.ok tpl' →
      tpl'.tel LookupKey.none = Except.ok v ∧
      ∀ i, (∃ t, t ∈ c.telescope_types ∧ i ∈ c.get_tel_ids_for_type t) →
        tpl'.tel (LookupKey.id i) = Except.ok v := by
  have hvp : validatePattern ev [Py.str ("type"), Py.str ("*"), v]
      = Except.ok ⟨"type", Arg.str ("*"), v⟩ := by
    simp [validatePattern, hev]
  have hloop : TelescopeParameter.validate ev (RawValue.scalar v)
      = Except.ok ⟨[⟨"type", Arg.str ("*"), v⟩],
          some (TelescopeParameterLookup.mk' [⟨"type", Arg.str ("*"), v⟩]),
          Option.none⟩ := by
    simp [TelescopeParameter.validate, hev, validateLoop, hvp]
  rw [hloop] at hval
  cases hval
  refine ⟨rfl, fun c tpl' hatt => ?_⟩
  unfold TelescopePatternList.attach_subarray at hatt
  simp only at hatt
  rw [show (TelescopeParameterLookup.mk'
        [⟨"type", Arg.str ("*"), v⟩]).attach_subarray c
      = Except.ok
          { telescope_parameter_list := [⟨"type", Arg.str ("*"), v⟩]
            value_for_tel_id :=
              some (c.telescope_types.foldl (applyTypeMatch c v)
                (⟨[], []⟩ : AttachState Py)).value_for_tel_id
            value_for_type :=
              some (c.telescope_types.foldl (applyTypeMatch c v)
                (⟨[], []⟩ : AttachState Py)).value_for_type
            subarray := some c
            subarray_global_value := some v
            type_strs := some c.telescope_types }
      from by
        unfold TelescopeParameterLookup.attach_subarray
        rw [show (TelescopeParameterLookup.mk'
            [⟨"type", Arg.str ("*"), v⟩]).telescope_parameter_list
            = [⟨"type", Arg.str ("*"), v⟩] from rfl]
        rw [attachLoop_star]
        rfl] at hatt
  cases hatt
  constructor
  · rfl
  · intro i hi
    obtain ⟨t, ht, hmem⟩ := hi
    simp only [TelescopePatternList.tel, TelescopeParameterLookup.get]
    rw [foldl_applyTypeMatch_mem c v c.telescope_types ⟨[], []⟩ t i ht hmem]

/-- Witness for C2: validating the scalar `4` and binding to the demo
catalog yields `4` for `None` and for telescope id 7. -/
theorem scalar_value_covers_catalog_witness :
    demoC2Attached.tel LookupKey.none = Except.ok (Py.int 4) ∧
    demoC2Attached.tel (LookupKey.id 7) = Except.ok (Py.int 4) := by
  have hlk : (TelescopeParameterLookup.mk' [demoC2Pattern]).attach_subarray demoSubarray
      = Except.ok demoC2Lookup := by
    unfold TelescopeParameterLookup.attach_subarray
    rw [show (TelescopeParameterLookup.mk' [demoC2Pattern]).telescope_parameter_list
        = [(⟨"type", Arg.str ("*"), Py.int 4⟩ : TelescopePattern Py)] from rfl]
    rw [attachLoop_star]
    rfl
  have hattfull : demoC2TPL.attach_subarray demoSubarray = Except.ok demoC2Attached := by
    unfold TelescopePatternList.attach_subarray
    rw [show demoC2TPL.lookup = some (TelescopeParameterLookup.mk' [demoC2Pattern]) from rfl]
    dsimp only
    rw [hlk]
    rfl
  have h := scalar_value_covers_catalog okTrait (Py.int 4) demoC2TPL rfl rfl
  exact ⟨(h.2 demoSubarray demoC2Attached hattfull).1,
    (h.2 demoSubarray demoC2Attached hattfull).2 7 ⟨"LST_X", by decide, by decide⟩⟩

/-- C6: reassigning a raw value to a field whose previous value had an
attached catalog immediately re-binds the new rule set to that same
catalog: the stored value carries the old catalog, its lookup is exactly
the fresh rule set replayed against that catalog, and no id- or
type-lookup on it fails with `NotBound` — no further attach call is
needed. -/
theorem set_rebinds_existing_subarray (ev : Py → Except PyErr Py)
    (old : TelescopePatternList Py) (raw : RawValue) (s : Subarray)
    (newV : TelescopePatternList Py)
    (hsub : old.subarray = some s)
    (hset : TelescopeParameter.set ev old raw = Except.ok newV) :
    newV.subarray = some s ∧
    ∃ lk, newV.lookup = some lk ∧
      (TelescopeParameterLookup.mk' newV.data).attach_subarray s = Except.ok lk ∧
      ∀ k, k ≠ LookupKey.none → lk.get k ≠ Except.error LookupErr.notBound := by
  unfold TelescopeParameter.set at hset
  split at hset
  · cases hset
  · rename_i value' hconv
    split at hset
    · cases hset
    · rename_i newVal0 hval
      rw [hsub] at hset
      have hat0 : newVal0.attach_subarray s = Except.ok newV := hset
      have hcons := validate_consistent ev value' newVal0 hval
      obtain ⟨hdata, hsub', lk0, lk, hlk0, hlk, hat⟩ := tpl_attach_pres newVal0 newV s hat0
      obtain ⟨hp, hg⟩ := hcons lk0 hlk0
      have hcongr : lk0.attach_subarray s
          = (TelescopeParameterLookup.mk' newVal0.data).attach_subarray s :=
        attach_subarray_congr lk0 (TelescopeParameterLookup.mk' newVal0.data) s hp hg
      obtain ⟨-, -, m, hm⟩ := attach_subarray_pres lk0 lk s hat
      refine ⟨hsub', lk, hlk, ?_, fun k hk => get_ne_notBound lk m hm k hk⟩
      rw [hdata, ← hcongr]
      exact hat

/-- Witness for C6: reassigning `[(id, 5, 42)]` over a value bound to the
demo catalog yields a value still bound to it, resolving without any
attach call. -/
theorem set_rebinds_existing_subarray_witness :
    demoC6New.subarray = some demoSubarray ∧
    ∃ lk, demoC6New.lookup = some lk ∧
      (TelescopeParameterLookup.mk' demoC6New.data).attach_subarray demoSubarray
        = Except.ok lk ∧
      ∀ k, k ≠ LookupKey.none → lk.get k ≠ Except.error LookupErr.notBound :=
  set_rebinds_existing_subarray okTrait demoC6Old
    (RawValue.plainList [[Py.str ("id"), Py.int 5, Py.int 42]]) demoSubarray demoC6New
    rfl rfl

/-- Counterexample to C7 as stated: for the raw pattern
`("id", None, 0)` the coercion `int(None)` raises `TypeError`, which the
`except ValueError` handler of lines 601-604 does not catch — the
reported error is a `TypeError`, not a `ValidationError`. -/
theorem pattern_validation_errors_cex :
    TelescopeParameter.validate okTrait
        (RawValue.plainList [[Py.str ("id"), Py.none, Py.int 0]])
      = Except.error PyErr.typeError ∧
    (Except.error PyErr.typeError : Except PyErr (TelescopePatternList Py))
      ≠ Except.error PyErr.traitError := by
  refine ⟨rfl, fun h => ?_⟩
  injection h with h2
  exact PyErr.noConfusion h2

/-- C7 (amended): rule-shape validation fails eagerly at assignment
time: a non-string command or a command other than `type`/`id` fails
with `ValidationError`; a `type` rule with a non-text argument fails
with `ValidationError`; an `id` rule whose argument coercion raises
`ValueError` (a non-numeric string) fails with `ValidationError`; but an
`id` rule whose argument coercion raises `TypeError` (a non-numeric,
non-string value such as `None`) propagates the `TypeError` unwrapped
rather than reporting a `ValidationError`. -/
theorem pattern_validation_errors (ev : Py → Except PyErr Py) (c a v : Py)
    (hev : ev v = Except.ok v) :
    ((∀ s, c ≠ Py.str s) →
      TelescopeParameter.validate ev (RawValue.plainList [[c, a, v]])
        = Except.error PyErr.traitError) ∧
    (∀ s, c = Py.str s → s ≠ "type" → s ≠ "id" →
      TelescopeParameter.validate ev (RawValue.plainList [[c, a, v]])
        = Except.error PyErr.traitError) ∧
    (c = Py.str ("type") → (∀ s, a ≠ Py.str s) →
      TelescopeParameter.validate ev (RawValue.plainList [[c, a, v]])
        = Except.error PyErr.traitError) ∧
    (c = Py.str ("id") → pyInt a = Except.error PyErr.valueError →
      TelescopeParameter.validate ev (RawValue.plainList [[c, a, v]])
        = Except.error PyErr.traitError) ∧
    (c = Py.str ("id") → pyInt a = Except.error PyErr.typeError →
      TelescopeParameter.validate ev (RawValue.plainList [[c, a, v]])
        = Except.error PyErr.typeError) := by
  refine ⟨?_, ?_, ?_, ?_, ?_⟩
  · intro hc
    cases c with
    | str s => exact absurd rfl (hc s)
    | int n => simp [TelescopeParameter.validate, validateLoop, validatePattern, hev]
    | float q => simp [TelescopeParameter.validate, validateLoop, validatePattern, hev]
    | bool b => simp [TelescopeParameter.validate, validateLoop, validatePattern, hev]
    | none => simp [TelescopeParameter.validate, validateLoop, validatePattern, hev]
  · intro s hcs h1 h2
    subst hcs
    simp [TelescopeParameter.validate, validateLoop, validatePattern, hev, h1, h2]
  · intro hcs ha
    subst hcs
    cases a with
    | str s => exact absurd rfl (ha s)
    | int n => simp [TelescopeParameter.validate, validateLoop, validatePattern, hev]
    | float q => simp [TelescopeParameter.validate, validateLoop, validatePattern, hev]
    | bool b => simp [TelescopeParameter.validate, validateLoop, validatePattern, hev]
    | none => simp [TelescopeParameter.validate, validateLoop, validatePattern, hev]
  · intro hcs hpy
    subst hcs
    simp [TelescopeParameter.validate, validateLoop, validatePattern, hev, hpy]
  · intro hcs hpy
    subst hcs
    simp [TelescopeParameter.validate, validateLoop, validatePattern, hev, hpy]

/-- Witness for the amended C7: the unknown command `bogus` is rejected
with `ValidationError` at assignment time. -/
theorem pattern_validation_errors_witness :
    TelescopeParameter.validate okTrait
        (RawValue.plainList [[Py.str ("bogus"), Py.str ("*"), Py.int 1]])
      = Except.error PyErr.traitError :=
  (pattern_validation_errors okTrait (Py.str ("bogus")) (Py.str ("*")) (Py.int 1)
    rfl).2.1 "bogus" rfl (by decide) (by decide)

/-- C8: path resolution dispatches on the parsed URI scheme: an empty
scheme or `file` yields the local path built from netloc and path; a
`dataset://name` input yields exactly the path the dataset-registry
collaborator returns for `name`; any scheme other than `http`, `https`,
`dataset`, `file` or empty fails with `ValidationError`; and the empty
string fails with `ValidationError`. -/
theorem path_scheme_dispatch (collab : Collaborators) :
    (∀ s, s ≠ "" → ((urlparse s).scheme = "" ∨ (urlparse s).scheme = "file") →
      resolveStr collab s = Except.ok (pathJoin (urlparse s).netloc (urlparse s).path)) ∧
    (∀ name, resolveStr collab ("dataset://" ++ name)
      = Except.ok (collab.get_dataset_path name)) ∧
    (∀ s, (urlparse s).scheme ∉ ["http", "https", "dataset", "file", ""] →
      resolveStr collab s = Except.error PathErr.validationError) ∧
    resolveStr collab "" = Except.error PathErr.validationError := by
  refine ⟨?_, ?_, ?_, rfl⟩
  · intro s hne hsch
    unfold resolveStr
    rw [if_neg hne]
    rcases hsch with h | h <;>
      rw [h, if_neg (by decide), if_neg (by decide), if_pos (by simp)]
  · intro name
    have hne : ("dataset://" ++ name) ≠ "" := by
      obtain ⟨l⟩ := name
      intro hcontr
      have : ("dataset://" ++ String.mk l).data = ("" : String).data := by rw [hcontr]
      exact List.noConfusion this
    unfold resolveStr
    rw [if_neg hne, urlparse_dataset_scheme]
    rw [if_neg (by decide), if_pos rfl, partitionAfter_head_match]
  · intro s hsch
    simp only [List.mem_cons, List.mem_singleton, not_or] at hsch
    obtain ⟨h1, h2, h3, h4, h5⟩ := hsch
    by_cases hne : s = ""
    · rw [hne]
      rfl
    · unfold resolveStr
      rw [if_neg hne, if_neg (by simp [h1, h2]), if_neg h3, if_neg (by simp [h4, h5])]

/-- Witness for C8: a `dataset://` URI resolves through the registry
collaborator, and an `ftp://` URI is rejected. -/
theorem path_scheme_dispatch_witness :
    resolveStr demoCollab ("dataset://fix.txt") = Except.ok ("/fixtures/fix.txt") ∧
    resolveStr demoCollab ("ftp://x") = Except.error PathErr.validationError :=
  ⟨(path_scheme_dispatch demoCollab).2.1 "fix.txt",
    (path_scheme_dispatch demoCollab).2.2.1 "ftp://x" (by decide)⟩

/-- C9: after absolutization, the constraint phase fails with a
`PathConstraintError` exactly when the `exists` constraint disagrees
with the filesystem or the existing path has a forbidden kind; the
required/forbidden failures carry the distinguishing "does not exist"
and "must not exist" errors; otherwise it returns the absolute path. -/
theorem path_constraint_check (t : PathTrait) (fs : FileSystem) (p : String) :
    ((∃ e, checkConstraints t fs p = Except.error e ∧ PathErr.isConstraint e = true) ↔
      ((t.exists_ = some true ∧ fs.pathExists (fs.absolute p) = false) ∨
       (t.exists_ = some false ∧ fs.pathExists (fs.absolute p) = true) ∨
       (fs.pathExists (fs.absolute p) = true ∧
         ((fs.is_dir (fs.absolute p) = true ∧ t.directory_ok = false) ∨
          (fs.is_file (fs.absolute p) = true ∧ t.file_ok = false))))) ∧
    (t.exists_ = some true → fs.pathExists (fs.absolute p) = false →
      checkConstraints t fs p = Except.error PathErr.pathDoesNotExist) ∧
    (t.exists_ = some false → fs.pathExists (fs.absolute p) = true →
      checkConstraints t fs p = Except.error PathErr.pathMustNotExist) ∧
    (¬((t.exists_ = some true ∧ fs.pathExists (fs.absolute p) = false) ∨
       (t.exists_ = some false ∧ fs.pathExists (fs.absolute p) = true) ∨
       (fs.pathExists (fs.absolute p) = true ∧
         ((fs.is_dir (fs.absolute p) = true ∧ t.directory_ok = false) ∨
          (fs.is_file (fs.absolute p) = true ∧ t.file_ok = false)))) →
      checkConstraints t fs p = Except.ok (fs.absolute p)) := by
  obtain ⟨te, dok, fok, an⟩ := t
  cases te with
  | none =>
      cases hex : fs.pathExists (fs.absolute p) <;>
        cases hdir : fs.is_dir (fs.absolute p) <;>
        cases hfile : fs.is_file (fs.absolute p) <;>
        cases dok <;> cases fok <;>
        simp [checkConstraints, kindCheck, hex, hdir, hfile, PathErr.isConstraint]
  | some b =>
      cases b <;>
        cases hex : fs.pathExists (fs.absolute p) <;>
        cases hdir : fs.is_dir (fs.absolute p) <;>
        cases hfile : fs.is_file (fs.absolute p) <;>
        cases dok <;> cases fok <;>
        simp [checkConstraints, kindCheck, hex, hdir, hfile, PathErr.isConstraint]

/-- Witness for C9: in a filesystem where nothing exists, a required
path fails with the "does not exist" constraint error, and an
unconstrained path validates to its absolute form. -/
theorem path_constraint_check_witness :
    checkConstraints ⟨some true, true, true, false⟩ demoFS ("f.txt")
      = Except.error PathErr.pathDoesNotExist ∧
    checkConstraints ⟨Option.none, true, true, false⟩ demoFS ("f.txt")
      = Except.ok ("/abs/f.txt") :=
  ⟨(path_constraint_check ⟨some true, true, true, false⟩ demoFS ("f.txt")).2.1 rfl rfl,
    (path_constraint_check ⟨Option.none, true, true, false⟩ demoFS ("f.txt")).2.2.2
      (by simp [demoFS])⟩

/-- Witness for C5: after binding `[(id, 3, 2)]` to the demo catalog,
re-attaching the second demo catalog equals attaching it afresh. -/
theorem attach_recomputes_from_scratch_witness :
    demoC5Lookup.attach_subarray demoSubarray2
      = (TelescopeParameterLookup.mk' demoC5Rules).attach_subarray demoSubarray2 :=
  attach_recomputes_from_scratch demoC5Rules demoSubarray demoSubarray2 demoC5Lookup rfl

end Ctapipe

